import Mathlib

/-
Formal model of the CV PDF generator repository.

The definitions below are shallow embeddings of the two source modules:
  * `generate_pdf.py` — the static HTML renderer (`create_static_html` and its
    per-section helpers), the local content server lifecycle
    (`is_port_available`, `start_server`, `stop_server`), and the CLI
    browser-driven PDF pipeline (`generate_pdf_playwright`).
  * `api_server.py` — the request model (`GenerateRequest`), the PDF service
    (`PDFService.generate_pdf`) with its invalid-language check, and the
    `asyncio.Semaphore`-based concurrency gate.

Pure string-building Python code becomes Lean string functions; stateful or
effectful code (the HTTP server socket, the browser steps, the semaphore)
becomes explicit state passing, outcome parameters for fallible awaited steps,
and event traces.
-/

/-- Parameters passed to a Playwright `page.pdf` call.  Mirrors the keyword
arguments used in both `api_server.py` and `generate_pdf.py`. -/
structure PdfParams where
  format : String
  margin_top : String
  margin_right : String
  margin_bottom : String
  margin_left : String
  print_background : Bool
  prefer_css_page_size : Bool
deriving DecidableEq, Repr

/-- `OccSeq needles hay` holds when every needle occurs contiguously in `hay`,
pairwise disjointly and in the given order: the haystack splits as
`a ++ n ++ b` with the remaining needles occurring, in order, inside `b`. -/
def OccSeq : List (List Char) → List Char → Prop
  | [], _ => True
  | n :: ns, hay => ∃ a b, hay = a ++ n ++ b ∧ OccSeq ns b

/-- The needle strings occur in the haystack string, in order. -/
def OccursInOrder (ns : List String) (hay : String) : Prop :=
  OccSeq (ns.map String.data) hay.data

namespace GeneratePdf

/-! ## Data model (the shape of one language's entry of `content.yaml`,
as accessed by `create_static_html` and the section renderers) -/

structure Contact where
  phone : String
  email : String
  linkedin : String
deriving DecidableEq

structure ExperienceEntry where
  years : String
  position : String
  company : Option String
  details : List String
deriving DecidableEq

structure SkillEntry where
  name : String
  description : String
deriving DecidableEq

structure EducationEntry where
  year : String
  detail : String
  org : String
deriving DecidableEq

structure LanguageLevelEntry where
  name : String
  level : String
deriving DecidableEq

structure DisabilityEntry where
  name : String
  level : String
deriving DecidableEq

structure ProjectEntry where
  years : String
  title : String
  intro : String
  position : String
  technology : String
  role : String
deriving DecidableEq

/-- One language's section of the résumé document.  Fields read with
`data[...]` in the source are required; fields read with `data.get(...)`
are optional. -/
structure LanguageSection where
  name : String
  intro : String
  contact : Contact
  experience : List ExperienceEntry
  skills : List SkillEntry
  skills_other : Option String
  education : List EducationEntry
  languages : List LanguageLevelEntry
  disabilities : Option (List DisabilityEntry)
  projects : List ProjectEntry
deriving DecidableEq

/-- The `labels` mapping (Python dict, insertion ordered). -/
abbrev Labels := List (String × String)

/-- `labels.get(key, dflt)`. -/
def labelsGet (labels : Labels) (key dflt : String) : String :=
  match labels.find? (fun kv => kv.fst == key) with
  | some kv => kv.snd
  | none => dflt

/-! ## Section renderers (from `generate_pdf.py`) -/

/-- The bullet character tested by `render_experience`. -/
def bulletChar : Char := '•'

/-- The `details_html` computation inside `render_experience`:
a single detail containing no bullet character is emitted verbatim,
anything else becomes a `<ul>` of `<li>` items.  Python's `'•' in s` is
membership of the bullet character among the string's characters. -/
def detailsHtml (details : List String) : String :=
  if details.length == 1 && !((details.headD "").data.contains bulletChar) then
    details.headD ""
  else
    "<ul>" ++ String.join (details.map (fun d => "<li>" ++ d ++ "</li>")) ++ "</ul>"

/-- The `company_html` computation inside `render_experience`:
`exp.get('company')` is truthy exactly when present and non-empty. -/
def companyHtml (company : Option String) : String :=
  match company with
  | some c =>
      if c.isEmpty then ""
      else "<span class=\"experience-company\">" ++ c ++ "</span><br/>"
  | none => ""

/-- One item appended to `items` per experience entry in `render_experience`. -/
def experienceItem (exp : ExperienceEntry) : String :=
  "<div class=\"experience-year\">" ++ exp.years
    ++ "</div><div><span class=\"experience-position\">" ++ exp.position
    ++ "</span><br/>" ++ companyHtml exp.company ++ detailsHtml exp.details
    ++ "</div>"

/-- `render_experience` from `generate_pdf.py`. -/
def render_experience (experiences : List ExperienceEntry) : String :=
  String.join (experiences.map experienceItem)

/-- One item of `render_skills`. -/
def skillItem (s : SkillEntry) : String :=
  "<span class=\"technology-name\">" ++ s.name
    ++ "</span><span class=\"technology-description\">" ++ s.description
    ++ "</span>"

/-- `render_skills` from `generate_pdf.py`. -/
def render_skills (skills : List SkillEntry) : String :=
  String.join (skills.map skillItem)

/-- One item of `render_education`. -/
def educationItem (e : EducationEntry) : String :=
  "<div class=\"education-year\">" ++ e.year
    ++ "</div>\n            <div><span class=\"education-detail\">" ++ e.detail
    ++ "</span><br/><span class=\"education-org\">" ++ e.org ++ "</span></div>"

/-- `render_education` from `generate_pdf.py`. -/
def render_education (education : List EducationEntry) : String :=
  String.join (education.map educationItem)

/-- One item of `render_languages`. -/
def languageItem (l : LanguageLevelEntry) : String :=
  "<span class=\"language-name\">" ++ l.name ++ "</span><span>" ++ l.level ++ "</span>"

/-- `render_languages` from `generate_pdf.py`. -/
def render_languages (languages : List LanguageLevelEntry) : String :=
  String.join (languages.map languageItem)

/-- One item of `render_disabilities`. -/
def disabilityItem (d : DisabilityEntry) : String :=
  "<span class=\"disability-name\">" ++ d.name ++ "</span><span>" ++ d.level ++ "</span>"

/-- `render_disabilities` from `generate_pdf.py`. -/
def render_disabilities (disabilities : List DisabilityEntry) : String :=
  String.join (disabilities.map disabilityItem)

/-- One item of `render_projects` (labels fall back to fixed English text). -/
def projectItem (labels : Labels) (p : ProjectEntry) : String :=
  "\n            <h2 class=\"workproject-heading\">" ++ p.years ++ " " ++ p.title
    ++ "</h2>\n            <div class=\"workproject-intro\">" ++ p.intro
    ++ "</div>\n            <div class=\"workproject-details\">\n                <strong>"
    ++ labelsGet labels "position" "Position" ++ "</strong><div>" ++ p.position
    ++ "</div>\n                <strong>"
    ++ labelsGet labels "technology" "Technology" ++ "</strong><div>" ++ p.technology
    ++ "</div>\n                <strong>"
    ++ labelsGet labels "role" "Role" ++ "</strong><div>" ++ p.role
    ++ "</div>\n            </div>\n        "

/-- `render_projects` from `generate_pdf.py`. -/
def render_projects (projects : List ProjectEntry) (labels : Labels) : String :=
  String.join (projects.map (projectItem labels))

/-- `create_static_html` from `generate_pdf.py`: the complete static HTML
document for one language.  Required fields are structure fields;
`data.get('skills_other', '')` and `data.get('disabilities', [])` become
`Option.getD`. -/
def create_static_html (data : LanguageSection) (labels : Labels) : String :=
  "<!DOCTYPE html>\n<html>\n<head>\n    <title>" ++ data.name
    ++ "</title>\n    <link rel=\"stylesheet\" href=\"styles/cv.css\">\n    <meta charset=\"utf-8\">\n</head>\n<body>\n    <div id=\"cv\">\n        <section id=\"header\">\n            <div id=\"name-container\">\n                <img id=\"profile-picture\" src=\"images/CV_1024x1024.png\" alt=\"profile-picture\"/>\n                <span id=\"name\">"
    ++ data.name
    ++ "</span>\n            </div>\n            <div id=\"intro\">\n                <span>"
    ++ data.intro
    ++ "</span>\n            </div>\n        </section>\n\n        <section id=\"contact\">\n            <a class=\"phoneNumber\" href=\"tel:"
    ++ data.contact.phone
    ++ "\">\n                <span class=\"fas fa-phone icon\"></span><span>"
    ++ data.contact.phone
    ++ "</span>\n            </a>\n            <a href=\"mailto:"
    ++ data.contact.email
    ++ "\">\n                <span class=\"fas fa-envelope icon\"></span><span>"
    ++ data.contact.email
    ++ "</span>\n            </a>\n            <a href=\""
    ++ data.contact.linkedin
    ++ "\">\n                <span class=\"fab fa-linkedin icon\"></span><span>linkedin.com/in/lukasz0wisniewski</span>\n            </a>\n        </section>\n\n        <h1>"
    ++ labelsGet labels "experience" "Experience"
    ++ "</h1>\n        <section id=\"experience\" class=\"section-experience\">\n            "
    ++ render_experience data.experience
    ++ "\n        </section>\n\n        <h1>"
    ++ labelsGet labels "skills" "Skills and Technology"
    ++ "</h1>\n        <div class=\"section-large\" id=\"technology-list\">\n            "
    ++ render_skills data.skills
    ++ "\n        </div>\n        <div id=\"technology-other\">\n            "
    ++ data.skills_other.getD ""
    ++ "\n        </div>\n\n        <section id=\"education\" class=\"two-sections\">\n            <div>\n                <h1>"
    ++ labelsGet labels "education" "Education"
    ++ "</h1>\n                <section class=\"section-small\">\n                    "
    ++ render_education data.education
    ++ "\n                </section>\n            </div>\n            <div>\n                <h1>"
    ++ labelsGet labels "language" "Language"
    ++ "</h1>\n                <section class=\"section-small\">\n                    "
    ++ render_languages data.languages
    ++ "\n                </section>\n                <h1>"
    ++ labelsGet labels "disability" "Certificate of Disability"
    ++ "</h1>\n                <section class=\"section-small\">\n                    "
    ++ render_disabilities (data.disabilities.getD [])
    ++ "\n                </section>\n            </div>\n        </section>\n\n        <h1 id=\"work-projects\">"
    ++ labelsGet labels "projects" "Project highlights"
    ++ "</h1>\n        "
    ++ render_projects data.projects labels
    ++ "\n    </div>\n</body>\n</html>"

/-! ## Local content server lifecycle (from `generate_pdf.py`)

The operating system's TCP port state is modelled as the list of currently
bound ports.  `is_port_available` binds a probe socket and immediately closes
it, so it is a pure test on that state. -/

/-- `is_port_available` from `generate_pdf.py`. -/
def is_port_available (osBound : List Nat) (port : Nat) : Bool :=
  !(osBound.contains port)

/-- `CVPDFGenerator.__init__` state relevant to the server lifecycle:
the configured port and the running server (`self.httpd`), recorded as the
port its socket is bound to. -/
structure CVPDFGenerator where
  port : Nat
  httpd : Option Nat
deriving DecidableEq

/-- The `RuntimeError` message raised by `start_server` on an occupied port. -/
def portInUseMsg (port : Nat) : String :=
  "Port " ++ toString port ++ " is already in use. Try --port with a different number."

/-- `CVPDFGenerator.start_server`: fails if the port is occupied, otherwise
binds `TCPServer(("", port))` (adding the port to the bound set) and serves on
a background thread; `wait_for_server` then succeeds because the socket is
already bound. -/
def start_server (osBound : List Nat) (g : CVPDFGenerator) :
    Except String (List Nat × CVPDFGenerator) :=
  if !(is_port_available osBound g.port) then
    Except.error (portInUseMsg g.port)
  else
    Except.ok (g.port :: osBound, { g with httpd := some g.port })

/-- `CVPDFGenerator.stop_server`: `shutdown` plus `server_close` release the
bound port; a generator that never started leaves the state unchanged. -/
def stop_server (osBound : List Nat) (g : CVPDFGenerator) :
    List Nat × CVPDFGenerator :=
  match g.httpd with
  | some p => (osBound.erase p, { g with httpd := none })
  | none => (osBound, g)

/-! ## CLI browser-driven pipeline (from `generate_pdf.py`)

Each awaited Playwright call can raise; an outcome record fixes which calls
succeed.  The run is summarised as a result plus a trace of resource events.
Exiting the `async with async_playwright()` block — normally or through an
exception — stops Playwright, which tears down the launched browser and every
browsing context it owns. -/

/-- The page margin used by the CLI entry point (`PDF_MARGIN` in
`generate_pdf.py`). -/
def PDF_MARGIN : String := "0.5in"

/-- The `page.pdf` keyword arguments of `generate_pdf_playwright`. -/
def cli_pdf_params : PdfParams :=
  { format := "A4"
    margin_top := PDF_MARGIN
    margin_right := PDF_MARGIN
    margin_bottom := PDF_MARGIN
    margin_left := PDF_MARGIN
    print_background := true
    prefer_css_page_size := true }

/-- Which awaited steps of `generate_pdf_playwright` succeed. -/
structure CliOutcome where
  new_page : Bool
  goto : Bool
  wait_cv : Bool
  click : Bool
  wait_timeout : Bool
  pdf : Bool
deriving DecidableEq

/-- Resource events of one `generate_pdf_playwright` run. -/
inductive CliEv where
  | pageOpen
  | clickPolski
  | pdfCall (p : PdfParams)
  | browserClose
  | playwrightStop
deriving DecidableEq

/-- `CVPDFGenerator.generate_pdf_playwright`: open a page, navigate, wait for
`#cv`, for Polish click the language button and wait, print to PDF, close the
browser.  Whatever happens inside the `async with async_playwright()` block,
Playwright is stopped when the block exits. -/
def generate_pdf_playwright (language : String) (o : CliOutcome) :
    Except String Unit × List CliEv :=
  let run : Except String Unit × List CliEv :=
    if o.new_page = false then
      (Except.error "new_page", [])
    else if o.goto = false then
      (Except.error "goto", [CliEv.pageOpen])
    else if o.wait_cv = false then
      (Except.error "wait_for_selector cv", [CliEv.pageOpen])
    else if language == "pl" && o.click == false then
      (Except.error "click Polski", [CliEv.pageOpen])
    else if language == "pl" && o.wait_timeout == false then
      (Except.error "wait_for_timeout", [CliEv.pageOpen, CliEv.clickPolski])
    else
      let pre := if language == "pl" then [CliEv.pageOpen, CliEv.clickPolski] else [CliEv.pageOpen]
      if o.pdf = false then
        (Except.error "page.pdf", pre)
      else
        (Except.ok (), pre ++ [CliEv.pdfCall cli_pdf_params, CliEv.browserClose])
  (run.fst, run.snd ++ [CliEv.playwrightStop])

/-- A run's browsing contexts are torn down: either the browser was closed
explicitly, or Playwright was stopped (which closes the browser it launched
and with it every open context). -/
def cliContextClosed (tr : List CliEv) : Prop :=
  CliEv.browserClose ∈ tr ∨ CliEv.playwrightStop ∈ tr

end GeneratePdf

namespace ApiServer

/-! ## API service (from `api_server.py`) -/

/-- The page margin used by the API entry point (`PDF_MARGIN` in
`api_server.py`). -/
def PDF_MARGIN : String := "0.4in"

/-- `MAX_CONCURRENT_PDFS` from `api_server.py`: the semaphore capacity. -/
def MAX_CONCURRENT_PDFS : Nat := 5

/-- `HTTPException` as raised by `PDFService.generate_pdf`. -/
structure HTTPException where
  status_code : Nat
  detail : String
deriving DecidableEq

/-- Failures of one `generate_pdf` call: the caller-facing `HTTPException`,
or an error raised by an awaited Playwright step. -/
inductive GenError where
  | httpError (e : HTTPException)
  | stepError (step : String)
deriving DecidableEq

/-- Python `repr` of a string: single quotes around the text. -/
def pyStrRepr (s : String) : String :=
  "\x27" ++ s ++ "\x27"

/-- Python `repr` of a list of strings, as interpolated by an f-string. -/
def pyListRepr (l : List String) : String :=
  "[" ++ String.intercalate ", " (l.map pyStrRepr) ++ "]"

/-- The `detail` of the 400 response:
`f"Language '{language}' not found in data. Available: {list(data.keys())}"`. -/
def invalidLanguageDetail (language : String) (keys : List String) : String :=
  "Language " ++ pyStrRepr language ++ " not found in data. Available: "
    ++ pyListRepr keys

/-- Keys of a Python dict modelled as an insertion-ordered association list. -/
def dictKeys {α : Type} (data : List (String × α)) : List String :=
  data.map Prod.fst

/-- Which awaited browser steps of `PDFService.generate_pdf` succeed. -/
structure BrowserOutcome where
  new_page : Bool
  goto : Bool
  wait_container : Bool
  evaluate : Bool
  wait_cv : Bool
  pdf : Bool
deriving DecidableEq

/-- Resource events of one `PDFService.generate_pdf` call: semaphore slot
acquisition and release, page (browsing context) opening and closing, and the
`page.pdf` invocation with its parameters. -/
inductive Ev where
  | semAcquire
  | pageOpen
  | pdfCall (p : PdfParams)
  | pageClose
  | semRelease
deriving DecidableEq

/-- The `page.pdf` keyword arguments of `PDFService.generate_pdf`. -/
def api_pdf_params : PdfParams :=
  { format := "A4"
    margin_top := PDF_MARGIN
    margin_right := PDF_MARGIN
    margin_bottom := PDF_MARGIN
    margin_left := PDF_MARGIN
    print_background := true
    prefer_css_page_size := true }

/-- The `try` body of `PDFService.generate_pdf`: navigate, wait for
`#cv-container`, evaluate the render script, wait for `#cv`, print to PDF.
Returns the body's result and the events it emits. -/
def bodyRun (o : BrowserOutcome) : Except GenError Unit × List Ev :=
  if o.goto = false then
    (Except.error (GenError.stepError "goto"), [])
  else if o.wait_container = false then
    (Except.error (GenError.stepError "wait_for_selector cv-container"), [])
  else if o.evaluate = false then
    (Except.error (GenError.stepError "evaluate renderCV"), [])
  else if o.wait_cv = false then
    (Except.error (GenError.stepError "wait_for_selector cv"), [])
  else if o.pdf = false then
    (Except.error (GenError.stepError "page.pdf"), [])
  else
    (Except.ok (), [Ev.pdfCall api_pdf_params])

/-- `PDFService.generate_pdf`: the invalid-language check runs first; then the
semaphore is entered (`async with self.semaphore`), a page is opened, the body
runs under `try`, the `finally` closes the page, and leaving the `async with`
releases the slot.  If `new_page` itself raises, no page exists to close but
the slot is still released. -/
def generate_pdf {α : Type} (data : List (String × α)) (language : String)
    (o : BrowserOutcome) : Except GenError Unit × List Ev :=
  if (dictKeys data).contains language = false then
    (Except.error (GenError.httpError
      { status_code := 400
        detail := invalidLanguageDetail language (dictKeys data) }), [])
  else if o.new_page = false then
    (Except.error (GenError.stepError "new_page"), [Ev.semAcquire, Ev.semRelease])
  else
    let body := bodyRun o
    (body.fst, Ev.semAcquire :: Ev.pageOpen :: body.snd ++ [Ev.pageClose, Ev.semRelease])

/-! ## Request model and endpoint (from `api_server.py`) -/

/-- A `POST /api/generate` body before validation: the `language` field may be
omitted, the `data` field is present. -/
structure RequestBody (α : Type) where
  language : Option String
  data : List (String × α)

/-- `GenerateRequest` from `api_server.py` after pydantic validation. -/
structure GenerateRequest (α : Type) where
  language : String
  data : List (String × α)

/-- Pydantic validation of `GenerateRequest`: `language: str = "en"` gives an
omitted `language` field the default value `"en"`. -/
def GenerateRequest.ofBody {α : Type} (b : RequestBody α) : GenerateRequest α :=
  { language := b.language.getD "en", data := b.data }

/-- The `POST /api/generate` handler: validate the body and call
`pdf_service.generate_pdf(request.data, request.language)`. -/
def api_generate {α : Type} (b : RequestBody α) (o : BrowserOutcome) :
    Except GenError Unit × List Ev :=
  let request := GenerateRequest.ofBody b
  generate_pdf request.data request.language o

/-! ## Concurrency gate (from `api_server.py`)

`asyncio.Semaphore(MAX_CONCURRENT_PDFS)` is modelled by its usage protocol:
a trace of acquire/release events, replayed against a counter of held slots.
An acquire only completes while fewer than `cap` slots are held (otherwise the
caller suspends, so the event cannot occur yet), and each job releases a slot
it holds. -/

/-- An acquisition or release of the gate by a job. -/
inductive GateEv where
  | acquire (job : Nat)
  | release (job : Nat)
deriving DecidableEq

/-- Replay one gate event over the count of held slots; `none` marks an
impossible event (an acquire completing at capacity, or a release without a
held slot). -/
def gateStep (cap : Nat) : Option Nat → GateEv → Option Nat
  | some n, GateEv.acquire _ => if n < cap then some (n + 1) else none
  | some n, GateEv.release _ => if 0 < n then some (n - 1) else none
  | none, _ => none

/-- Replay a whole trace from an idle gate. -/
def gateRun (cap : Nat) (tr : List GateEv) : Option Nat :=
  tr.foldl (gateStep cap) (some 0)

/-- A trace the gate can actually produce. -/
def ValidGateTrace (cap : Nat) (tr : List GateEv) : Prop :=
  (gateRun cap tr).isSome = true

/-- Number of acquire events in a trace. -/
def countAcquires (tr : List GateEv) : Nat :=
  tr.countP (fun e => match e with | GateEv.acquire _ => true | _ => false)

/-- Number of release events in a trace. -/
def countReleases (tr : List GateEv) : Nat :=
  tr.countP (fun e => match e with | GateEv.release _ => true | _ => false)

end ApiServer

/-! ## Occurrence-order lemmas -/

theorem occSeq_cons_iff (n : List Char) (ns : List (List Char)) (hay : List Char) :
    OccSeq (n :: ns) hay ↔ ∃ a b, hay = a ++ n ++ b ∧ OccSeq ns b := by
  simp [OccSeq]

theorem occSeq_nil (h : List Char) : OccSeq [] h := trivial

theorem occSeq_skip {ns : List (List Char)} {h : List Char} (c : List Char)
    (hh : OccSeq ns h) : OccSeq ns (c ++ h) := by
  cases ns with
  | nil => exact trivial
  | cons n ns =>
    rw [occSeq_cons_iff] at hh ⊢
    obtain ⟨a, b, e, rest⟩ := hh
    subst e
    exact ⟨c ++ a, b, by simp, rest⟩

theorem occSeq_take {ns : List (List Char)} {h : List Char} (n : List Char)
    (hh : OccSeq ns h) : OccSeq (n :: ns) (n ++ h) := by
  rw [occSeq_cons_iff]
  exact ⟨[], h, by simp, hh⟩

theorem occSeq_extend_right {ns : List (List Char)} {h : List Char} (t : List Char)
    (hh : OccSeq ns h) : OccSeq ns (h ++ t) := by
  induction ns generalizing h with
  | nil => exact trivial
  | cons n ns ih =>
    rw [occSeq_cons_iff] at hh ⊢
    obtain ⟨a, b, e, rest⟩ := hh
    subst e
    exact ⟨a, b ++ t, by simp, ih rest⟩

theorem occSeq_append {xs ys : List (List Char)} {h1 h2 : List Char}
    (hx : OccSeq xs h1) (hy : OccSeq ys h2) : OccSeq (xs ++ ys) (h1 ++ h2) := by
  induction xs generalizing h1 with
  | nil => simpa using occSeq_skip h1 hy
  | cons n xs ih =>
    rw [occSeq_cons_iff] at hx
    obtain ⟨a, b, e, rest⟩ := hx
    subst e
    rw [List.cons_append, occSeq_cons_iff]
    exact ⟨a, b ++ h2, by simp, ih rest⟩

/-- The experience positions occur, in input order, in the output of
`render_experience`. -/
theorem occ_positions (exps : List GeneratePdf.ExperienceEntry) :
    OccSeq (List.map String.data (List.map GeneratePdf.ExperienceEntry.position exps))
      (GeneratePdf.render_experience exps).data := by
  induction exps with
  | nil => exact trivial
  | cons e es ih =>
    have hd : (GeneratePdf.render_experience (e :: es)).data
        = (GeneratePdf.experienceItem e).data ++ (GeneratePdf.render_experience es).data := by
      simp [GeneratePdf.render_experience, String.data_join]
    rw [List.map_cons, List.map_cons, hd]
    simp only [GeneratePdf.experienceItem, String.data_append, List.append_assoc]
    apply occSeq_skip
    apply occSeq_skip
    apply occSeq_skip
    apply occSeq_take
    apply occSeq_skip
    apply occSeq_skip
    apply occSeq_skip
    apply occSeq_skip
    exact ih

/-- The skill names occur, in input order, in the output of `render_skills`. -/
theorem occ_skillnames (skills : List GeneratePdf.SkillEntry) :
    OccSeq (List.map String.data (List.map GeneratePdf.SkillEntry.name skills))
      (GeneratePdf.render_skills skills).data := by
  induction skills with
  | nil => exact trivial
  | cons s ss ih =>
    have hd : (GeneratePdf.render_skills (s :: ss)).data
        = (GeneratePdf.skillItem s).data ++ (GeneratePdf.render_skills ss).data := by
      simp [GeneratePdf.render_skills, String.data_join]
    rw [List.map_cons, List.map_cons, hd]
    simp only [GeneratePdf.skillItem, String.data_append, List.append_assoc]
    apply occSeq_skip
    apply occSeq_take
    apply occSeq_skip
    apply occSeq_skip
    apply occSeq_skip
    exact ih

/-! ## Claims -/

/-- Claim C4: an experience entry whose detail list has exactly one element
containing no bullet character renders its details as the plain detail text
(no list markup); any other detail list renders as an unordered list with one
`<li>` per detail string, verbatim and in order.  The third conjunct records
how the details fragment embeds into the rendered entry. -/
theorem claim_C4 (details : List String) :
    (∀ d, details = [d] → d.data.contains GeneratePdf.bulletChar = false →
      GeneratePdf.detailsHtml details = d) ∧
    (details.length ≠ 1 ∨ (∃ d, details = [d] ∧ d.data.contains GeneratePdf.bulletChar = true) →
      GeneratePdf.detailsHtml details
        = "<ul>" ++ String.join (details.map (fun d => "<li>" ++ d ++ "</li>")) ++ "</ul>") ∧
    (∀ exp : GeneratePdf.ExperienceEntry,
      GeneratePdf.experienceItem exp
        = "<div class=\"experience-year\">" ++ exp.years
          ++ "</div><div><span class=\"experience-position\">" ++ exp.position
          ++ "</span><br/>" ++ GeneratePdf.companyHtml exp.company
          ++ GeneratePdf.detailsHtml exp.details ++ "</div>") := by
  refine ⟨?_, ?_, fun exp => rfl⟩
  · rintro d rfl hb
    simp at hb
    simp [GeneratePdf.detailsHtml, hb]
  · rintro (hne | ⟨d, rfl, hb⟩)
    · simp [GeneratePdf.detailsHtml, hne]
    · simp at hb
      simp [GeneratePdf.detailsHtml, hb]

theorem claim_C4_witness :
    GeneratePdf.detailsHtml ["Did X"] = "Did X" ∧
    GeneratePdf.detailsHtml ["Did X", "Did Y"]
      = "<ul>" ++ String.join (["Did X", "Did Y"].map (fun d => "<li>" ++ d ++ "</li>")) ++ "</ul>" :=
  ⟨(claim_C4 ["Did X"]).1 "Did X" rfl (by decide),
   (claim_C4 ["Did X", "Did Y"]).2.1 (Or.inl (by decide))⟩

/-- Claim C5: for every `LanguageSection`, the rendered HTML contains the
candidate name, every experience entry's position and every skill's name, and
the positions and skill names occur in the output in exactly the order of the
input sequences. -/
theorem claim_C5 (data : GeneratePdf.LanguageSection) (labels : GeneratePdf.Labels) :
    OccursInOrder
      (data.name :: (data.experience.map GeneratePdf.ExperienceEntry.position
        ++ data.skills.map GeneratePdf.SkillEntry.name))
      (GeneratePdf.create_static_html data labels) := by
  unfold OccursInOrder
  rw [List.map_cons, List.map_append]
  unfold GeneratePdf.create_static_html
  set_option maxRecDepth 8000 in
  simp only [String.data_append, List.append_assoc]
  apply occSeq_skip
  apply occSeq_take
  apply occSeq_skip
  apply occSeq_skip
  apply occSeq_skip
  apply occSeq_skip
  apply occSeq_skip
  apply occSeq_skip
  apply occSeq_skip
  apply occSeq_skip
  apply occSeq_skip
  apply occSeq_skip
  apply occSeq_skip
  apply occSeq_skip
  apply occSeq_skip
  apply occSeq_skip
  apply occSeq_skip
  apply occSeq_skip
  apply occSeq_skip
  refine occSeq_append (occ_positions data.experience) ?_
  apply occSeq_skip
  apply occSeq_skip
  apply occSeq_skip
  exact occSeq_extend_right _ (occ_skillnames data.skills)

/-- Claim C7: rendering with the optional fields `skills_other` and
`disabilities` absent does not fail; absence is treated exactly as the empty
text / empty sequence, and the rest of the document is produced normally
(in particular it still contains the candidate name). -/
theorem claim_C7 (data : GeneratePdf.LanguageSection) (labels : GeneratePdf.Labels) :
    GeneratePdf.create_static_html
        { data with skills_other := none, disabilities := none } labels
      = GeneratePdf.create_static_html
        { data with skills_other := some "", disabilities := some [] } labels ∧
    OccursInOrder [data.name]
      (GeneratePdf.create_static_html
        { data with skills_other := none, disabilities := none } labels) := by
  refine ⟨rfl, ?_⟩
  unfold OccursInOrder
  rw [List.map_cons]
  unfold GeneratePdf.create_static_html
  set_option maxRecDepth 8000 in
  simp only [String.data_append, List.append_assoc]
  apply occSeq_skip
  apply occSeq_take
  exact trivial

/-- Claim C10: a `POST /api/generate` body that omits the `language` field is
not rejected: pydantic fills in the default `"en"` and the request is
processed as a generation request for language `"en"`. -/
theorem claim_C10 {α : Type} (d : List (String × α)) (o : ApiServer.BrowserOutcome) :
    ApiServer.GenerateRequest.ofBody { language := none, data := d }
      = ({ language := "en", data := d } : ApiServer.GenerateRequest α) ∧
    ApiServer.api_generate { language := none, data := d } o
      = ApiServer.generate_pdf d "en" o :=
  ⟨rfl, rfl⟩

/-- Claim C1: a request whose language key is absent from the supplied data
fails with an HTTP 400 whose detail message lists the available language keys;
for a document with keys `en` and `pl` and requested language `de`, the
message lists exactly those two keys. -/
theorem claim_C1 {α : Type} (data : List (String × α)) (language : String)
    (o : ApiServer.BrowserOutcome)
    (h : (ApiServer.dictKeys data).contains language = false) :
    (ApiServer.generate_pdf data language o).fst
      = Except.error (ApiServer.GenError.httpError
          { status_code := 400
            detail := ApiServer.invalidLanguageDetail language (ApiServer.dictKeys data) }) ∧
    ApiServer.invalidLanguageDetail "de" ["en", "pl"]
      = "Language \x27de\x27 not found in data. Available: [\x27en\x27, \x27pl\x27]" := by
  have h2 : language ∉ ApiServer.dictKeys data := by simpa using h
  constructor
  · simp [ApiServer.generate_pdf, h2]
  · rfl

theorem claim_C1_witness :
    (ApiServer.generate_pdf [("en", (0 : Nat)), ("pl", 0)] "de"
        ⟨true, true, true, true, true, true⟩).fst
      = Except.error (ApiServer.GenError.httpError
          { status_code := 400
            detail := ApiServer.invalidLanguageDetail "de"
              (ApiServer.dictKeys [("en", (0 : Nat)), ("pl", 0)]) }) ∧
    ApiServer.invalidLanguageDetail "de" ["en", "pl"]
      = "Language \x27de\x27 not found in data. Available: [\x27en\x27, \x27pl\x27]" :=
  claim_C1 [("en", 0), ("pl", 0)] "de" ⟨true, true, true, true, true, true⟩ (by decide)

/-- Claim C9: the invalid-language check runs before the semaphore is entered
and before any page is opened: a request failing that check produces an empty
resource trace (no slot acquired, no context opened) and a 400 error. -/
theorem claim_C9 {α : Type} (data : List (String × α)) (language : String)
    (o : ApiServer.BrowserOutcome)
    (h : (ApiServer.dictKeys data).contains language = false) :
    (ApiServer.generate_pdf data language o).snd = [] ∧
    ApiServer.Ev.semAcquire ∉ (ApiServer.generate_pdf data language o).snd ∧
    ApiServer.Ev.pageOpen ∉ (ApiServer.generate_pdf data language o).snd ∧
    ∃ e, (ApiServer.generate_pdf data language o).fst
        = Except.error (ApiServer.GenError.httpError e) ∧ e.status_code = 400 := by
  have h2 : language ∉ ApiServer.dictKeys data := by simpa using h
  refine ⟨?_, ?_, ?_, ?_⟩
  · simp [ApiServer.generate_pdf, h2]
  · simp [ApiServer.generate_pdf, h2]
  · simp [ApiServer.generate_pdf, h2]
  · exact ⟨{ status_code := 400
             detail := ApiServer.invalidLanguageDetail language (ApiServer.dictKeys data) },
      by simp [ApiServer.generate_pdf, h2], rfl⟩

theorem claim_C9_witness :
    (ApiServer.generate_pdf [("en", (0 : Nat)), ("pl", 0)] "de"
        ⟨true, true, true, true, true, true⟩).snd = [] ∧
    ApiServer.Ev.semAcquire ∉ (ApiServer.generate_pdf [("en", (0 : Nat)), ("pl", 0)] "de"
        ⟨true, true, true, true, true, true⟩).snd ∧
    ApiServer.Ev.pageOpen ∉ (ApiServer.generate_pdf [("en", (0 : Nat)), ("pl", 0)] "de"
        ⟨true, true, true, true, true, true⟩).snd ∧
    ∃ e, (ApiServer.generate_pdf [("en", (0 : Nat)), ("pl", 0)] "de"
        ⟨true, true, true, true, true, true⟩).fst
        = Except.error (ApiServer.GenError.httpError e) ∧ e.status_code = 400 :=
  claim_C9 [("en", 0), ("pl", 0)] "de" ⟨true, true, true, true, true, true⟩ (by decide)

/-- Claim C3: on every exit path of a browser-driven job — including failure
of navigation, selector waiting, data injection or PDF extraction — the
browsing context is closed and (for the API path) the gate slot is released.
In the CLI path the context is torn down by closing the browser or stopping
Playwright when the `async with async_playwright()` block exits. -/
theorem claim_C3 :
    (∀ (α : Type) (data : List (String × α)) (language : String)
        (o : ApiServer.BrowserOutcome),
      (ApiServer.Ev.semAcquire ∈ (ApiServer.generate_pdf data language o).snd →
        ApiServer.Ev.semRelease ∈ (ApiServer.generate_pdf data language o).snd) ∧
      (ApiServer.Ev.pageOpen ∈ (ApiServer.generate_pdf data language o).snd →
        ApiServer.Ev.pageClose ∈ (ApiServer.generate_pdf data language o).snd ∧
        ApiServer.Ev.semRelease ∈ (ApiServer.generate_pdf data language o).snd)) ∧
    (∀ (language : String) (o : GeneratePdf.CliOutcome),
      GeneratePdf.CliEv.pageOpen ∈ (GeneratePdf.generate_pdf_playwright language o).snd →
        GeneratePdf.cliContextClosed (GeneratePdf.generate_pdf_playwright language o).snd) := by
  constructor
  · intro α data language o
    by_cases hl : language ∈ ApiServer.dictKeys data
    · by_cases hn : o.new_page = false
      · constructor
        · intro _; simp [ApiServer.generate_pdf, hl, hn]
        · intro hmem; simp [ApiServer.generate_pdf, hl, hn] at hmem
      · constructor
        · intro _; simp [ApiServer.generate_pdf, hl, hn]
        · intro _; constructor <;> simp [ApiServer.generate_pdf, hl, hn]
    · constructor <;> · intro hmem; simp [ApiServer.generate_pdf, hl] at hmem
  · intro language o _
    right
    simp [GeneratePdf.generate_pdf_playwright]

theorem claim_C3_witness :
    (ApiServer.Ev.pageClose ∈ (ApiServer.generate_pdf [("en", (0 : Nat))] "en"
        ⟨true, false, true, true, true, true⟩).snd ∧
      ApiServer.Ev.semRelease ∈ (ApiServer.generate_pdf [("en", (0 : Nat))] "en"
        ⟨true, false, true, true, true, true⟩).snd) ∧
    GeneratePdf.cliContextClosed
      (GeneratePdf.generate_pdf_playwright "en" ⟨true, false, true, true, true, true⟩).snd :=
  ⟨(claim_C3.1 Nat [("en", 0)] "en" ⟨true, false, true, true, true, true⟩).2 (by decide),
   claim_C3.2 "en" ⟨true, false, true, true, true, true⟩ (by decide)⟩

/-- The `try` body emits either no events (a step before `page.pdf` failed)
or exactly one `page.pdf` invocation with the fixed parameters. -/
theorem bodyRun_snd (o : ApiServer.BrowserOutcome) :
    (ApiServer.bodyRun o).snd = []
      ∨ (ApiServer.bodyRun o).snd = [ApiServer.Ev.pdfCall ApiServer.api_pdf_params] := by
  unfold ApiServer.bodyRun
  repeat' split
  all_goals simp

/-- Claim C8: every browser-driven print-to-PDF invocation uses the fixed
parameters: format A4, the same margin on all four sides — `"0.4in"` for the
API entry point and `"0.5in"` for the CLI entry point, the two endpoints of
the documented 0.4–0.5 inch range — with background graphics printed and
CSS page size preferred. -/
theorem claim_C8 :
    (∀ (α : Type) (data : List (String × α)) (language : String)
        (o : ApiServer.BrowserOutcome) (p : PdfParams),
      ApiServer.Ev.pdfCall p ∈ (ApiServer.generate_pdf data language o).snd →
        p = ApiServer.api_pdf_params) ∧
    ApiServer.api_pdf_params
      = { format := "A4", margin_top := "0.4in", margin_right := "0.4in"
          margin_bottom := "0.4in", margin_left := "0.4in"
          print_background := true, prefer_css_page_size := true } ∧
    (∀ (language : String) (o : GeneratePdf.CliOutcome) (p : PdfParams),
      GeneratePdf.CliEv.pdfCall p ∈ (GeneratePdf.generate_pdf_playwright language o).snd →
        p = GeneratePdf.cli_pdf_params) ∧
    GeneratePdf.cli_pdf_params
      = { format := "A4", margin_top := "0.5in", margin_right := "0.5in"
          margin_bottom := "0.5in", margin_left := "0.5in"
          print_background := true, prefer_css_page_size := true } := by
  refine ⟨?_, rfl, ?_, rfl⟩
  · intro α data language o p hmem
    by_cases hl : language ∈ ApiServer.dictKeys data
    · by_cases hn : o.new_page = false
      · simp [ApiServer.generate_pdf, hl, hn] at hmem
      · rcases bodyRun_snd o with hb | hb
        · simp [ApiServer.generate_pdf, hl, hn, hb] at hmem
        · simp [ApiServer.generate_pdf, hl, hn, hb] at hmem
          exact hmem
    · simp [ApiServer.generate_pdf, hl] at hmem
  · intro language o p hmem
    rcases Bool.eq_false_or_eq_true (language == "pl") with hpl | hpl <;>
      rcases o with ⟨np, gt, wc, ck, wt, pf⟩ <;>
      cases np <;> cases gt <;> cases wc <;> cases ck <;> cases wt <;> cases pf <;>
      simp [GeneratePdf.generate_pdf_playwright, hpl] at hmem <;>
      exact hmem

theorem claim_C8_witness :
    ApiServer.Ev.pdfCall ApiServer.api_pdf_params
      ∈ (ApiServer.generate_pdf [("en", (0 : Nat))] "en"
          ⟨true, true, true, true, true, true⟩).snd ∧
    GeneratePdf.CliEv.pdfCall GeneratePdf.cli_pdf_params
      ∈ (GeneratePdf.generate_pdf_playwright "en"
          ⟨true, true, true, true, true, true⟩).snd ∧
    ApiServer.api_pdf_params = ApiServer.api_pdf_params ∧
    GeneratePdf.cli_pdf_params = GeneratePdf.cli_pdf_params :=
  ⟨by decide, by decide,
   claim_C8.1 Nat [("en", 0)] "en" ⟨true, true, true, true, true, true⟩
     ApiServer.api_pdf_params (by decide),
   claim_C8.2.2.1 "en" ⟨true, true, true, true, true, true⟩
     GeneratePdf.cli_pdf_params (by decide)⟩

/-- Claim C6: starting the content server on a port that is already bound
fails with the port-in-use error (it never picks another port); after
`stop_server` the port is free again, so a subsequent `start_server` on the
same port succeeds. -/
theorem claim_C6 (osBound : List Nat) (g : GeneratePdf.CVPDFGenerator) :
    (osBound.contains g.port = true →
      GeneratePdf.start_server osBound g
        = Except.error (GeneratePdf.portInUseMsg g.port)) ∧
    (osBound.contains g.port = false →
      GeneratePdf.start_server osBound g
        = Except.ok (g.port :: osBound, { g with httpd := some g.port }) ∧
      (∀ g2 : GeneratePdf.CVPDFGenerator, g2.port = g.port →
        GeneratePdf.start_server (g.port :: osBound) g2
          = Except.error (GeneratePdf.portInUseMsg g2.port)) ∧
      GeneratePdf.stop_server (g.port :: osBound) { g with httpd := some g.port }
        = (osBound, { g with httpd := none }) ∧
      (∀ g2 : GeneratePdf.CVPDFGenerator, g2.port = g.port →
        GeneratePdf.start_server osBound g2
          = Except.ok (g2.port :: osBound, { g2 with httpd := some g2.port }))) := by
  constructor
  · intro hbusy
    have hb2 : g.port ∈ osBound := by simpa using hbusy
    simp [GeneratePdf.start_server, GeneratePdf.is_port_available, hb2]
  · intro hfree
    have hf2 : g.port ∉ osBound := by simpa using hfree
    refine ⟨?_, ?_, ?_, ?_⟩
    · simp [GeneratePdf.start_server, GeneratePdf.is_port_available, hf2]
    · intro g2 hp
      simp [GeneratePdf.start_server, GeneratePdf.is_port_available, hp]
    · simp [GeneratePdf.stop_server]
    · intro g2 hp
      simp [GeneratePdf.start_server, GeneratePdf.is_port_available, hp, hf2]

theorem claim_C6_witness :
    GeneratePdf.start_server [8000] ⟨8000, none⟩
      = Except.error (GeneratePdf.portInUseMsg 8000) ∧
    GeneratePdf.start_server [] ⟨8000, none⟩
      = Except.ok ([8000], ⟨8000, some 8000⟩) ∧
    GeneratePdf.stop_server [8000] ⟨8000, some 8000⟩ = ([], ⟨8000, none⟩) ∧
    GeneratePdf.start_server [] ⟨8000, none⟩
      = Except.ok ([8000], ⟨8000, some 8000⟩) :=
  ⟨(claim_C6 [8000] ⟨8000, none⟩).1 (by decide),
   ((claim_C6 [] ⟨8000, none⟩).2 (by decide)).1,
   ((claim_C6 [] ⟨8000, none⟩).2 (by decide)).2.2.1,
   ((claim_C6 [] ⟨8000, none⟩).2 (by decide)).2.2.2 ⟨8000, none⟩ rfl⟩

/-- Replaying any trace from an already-impossible state stays impossible. -/
theorem gateFold_none (cap : Nat) (l : List ApiServer.GateEv) :
    l.foldl (ApiServer.gateStep cap) none = none := by
  induction l with
  | nil => rfl
  | cons e l ih => cases e <;> simpa [ApiServer.gateStep] using ih

/-- The held-slot count never exceeds the capacity. -/
theorem gateFold_le (cap : Nat) (l : List ApiServer.GateEv) :
    ∀ m n : Nat, m ≤ cap → l.foldl (ApiServer.gateStep cap) (some m) = some n →
      n ≤ cap := by
  induction l with
  | nil =>
    intro m n _ h
    simp at h
    omega
  | cons e l ih =>
    intro m n hm h
    rw [List.foldl_cons] at h
    cases e with
    | acquire j =>
      by_cases hlt : m < cap
      · rw [show ApiServer.gateStep cap (some m) (ApiServer.GateEv.acquire j)
            = some (m + 1) by simp [ApiServer.gateStep, hlt]] at h
        exact ih (m + 1) n (by omega) h
      · rw [show ApiServer.gateStep cap (some m) (ApiServer.GateEv.acquire j)
            = none by simp [ApiServer.gateStep, hlt], gateFold_none] at h
        exact absurd h (by simp)
    | release j =>
      by_cases hpos : 0 < m
      · rw [show ApiServer.gateStep cap (some m) (ApiServer.GateEv.release j)
            = some (m - 1) by simp [ApiServer.gateStep, hpos]] at h
        exact ih (m - 1) n (by omega) h
      · rw [show ApiServer.gateStep cap (some m) (ApiServer.GateEv.release j)
            = none by simp [ApiServer.gateStep, hpos], gateFold_none] at h
        exact absurd h (by simp)

/-- Replaying a trace balances the books: starting slots plus acquisitions
equal final slots plus releases. -/
theorem gateFold_count (cap : Nat) (l : List ApiServer.GateEv) :
    ∀ m n : Nat, l.foldl (ApiServer.gateStep cap) (some m) = some n →
      m + ApiServer.countAcquires l = n + ApiServer.countReleases l := by
  induction l with
  | nil =>
    intro m n h
    simp at h
    simp [ApiServer.countAcquires, ApiServer.countReleases, h]
  | cons e l ih =>
    intro m n h
    rw [List.foldl_cons] at h
    cases e with
    | acquire j =>
      by_cases hlt : m < cap
      · rw [show ApiServer.gateStep cap (some m) (ApiServer.GateEv.acquire j)
            = some (m + 1) by simp [ApiServer.gateStep, hlt]] at h
        have := ih (m + 1) n h
        simp [ApiServer.countAcquires, ApiServer.countReleases,
          List.countP_cons] at this ⊢
        omega
      · rw [show ApiServer.gateStep cap (some m) (ApiServer.GateEv.acquire j)
            = none by simp [ApiServer.gateStep, hlt], gateFold_none] at h
        exact absurd h (by simp)
    | release j =>
      by_cases hpos : 0 < m
      · rw [show ApiServer.gateStep cap (some m) (ApiServer.GateEv.release j)
            = some (m - 1) by simp [ApiServer.gateStep, hpos]] at h
        have := ih (m - 1) n h
        simp [ApiServer.countAcquires, ApiServer.countReleases,
          List.countP_cons] at this ⊢
        omega
      · rw [show ApiServer.gateStep cap (some m) (ApiServer.GateEv.release j)
            = none by simp [ApiServer.gateStep, hpos], gateFold_none] at h
        exact absurd h (by simp)

/-- Every prefix of a replayable trace replays to a definite count. -/
theorem gateRun_append_isSome (cap : Nat) (l1 l2 : List ApiServer.GateEv)
    (h : (ApiServer.gateRun cap (l1 ++ l2)).isSome = true) :
    ∃ n, ApiServer.gateRun cap l1 = some n := by
  unfold ApiServer.gateRun at h ⊢
  rw [List.foldl_append] at h
  cases hc : l1.foldl (ApiServer.gateStep cap) (some 0) with
  | some n => exact ⟨n, rfl⟩
  | none =>
    rw [hc, gateFold_none] at h
    exact absurd h (by simp)

/-- Claim C2: with the gate at its default capacity `MAX_CONCURRENT_PDFS = 5`,
every prefix of a gate trace holds at most 5 slots — so at most 5 jobs hold an
active browsing context at any instant — and an acquire that follows at least
5 earlier acquisitions can only occur after at least one release. -/
theorem claim_C2 (tr : List ApiServer.GateEv)
    (h : ApiServer.ValidGateTrace ApiServer.MAX_CONCURRENT_PDFS tr) :
    (∀ pre, pre <+: tr →
      ∃ n, ApiServer.gateRun ApiServer.MAX_CONCURRENT_PDFS pre = some n
        ∧ n ≤ ApiServer.MAX_CONCURRENT_PDFS) ∧
    (∀ pre j rest, tr = pre ++ ApiServer.GateEv.acquire j :: rest →
      ApiServer.MAX_CONCURRENT_PDFS ≤ ApiServer.countAcquires pre →
      1 ≤ ApiServer.countReleases pre) := by
  constructor
  · rintro pre ⟨suf, rfl⟩
    obtain ⟨n, hn⟩ := gateRun_append_isSome _ pre suf h
    exact ⟨n, hn, gateFold_le _ pre 0 n (by omega) hn⟩
  · rintro pre j rest rfl hge
    have h2 : ApiServer.ValidGateTrace ApiServer.MAX_CONCURRENT_PDFS
        ((pre ++ [ApiServer.GateEv.acquire j]) ++ rest) := by
      rw [List.append_assoc, List.singleton_append]
      exact h
    obtain ⟨n, hn⟩ := gateRun_append_isSome _ (pre ++ [ApiServer.GateEv.acquire j]) rest h2
    unfold ApiServer.gateRun at hn
    rw [List.foldl_append] at hn
    cases hc : pre.foldl (ApiServer.gateStep ApiServer.MAX_CONCURRENT_PDFS) (some 0) with
    | none =>
      rw [hc] at hn
      simp [ApiServer.gateStep] at hn
    | some m =>
      rw [hc] at hn
      by_cases hlt : m < ApiServer.MAX_CONCURRENT_PDFS
      · have hcount := gateFold_count ApiServer.MAX_CONCURRENT_PDFS pre 0 m hc
        omega
      · simp [ApiServer.gateStep, hlt] at hn

theorem claim_C2_witness :
    (∃ n, ApiServer.gateRun ApiServer.MAX_CONCURRENT_PDFS
        [ApiServer.GateEv.acquire 0, ApiServer.GateEv.acquire 1, ApiServer.GateEv.acquire 2,
         ApiServer.GateEv.acquire 3, ApiServer.GateEv.acquire 4] = some n
      ∧ n ≤ ApiServer.MAX_CONCURRENT_PDFS) ∧
    1 ≤ ApiServer.countReleases
        [ApiServer.GateEv.acquire 0, ApiServer.GateEv.acquire 1, ApiServer.GateEv.acquire 2,
         ApiServer.GateEv.acquire 3, ApiServer.GateEv.acquire 4, ApiServer.GateEv.release 0] :=
  ⟨(claim_C2
      [ApiServer.GateEv.acquire 0, ApiServer.GateEv.acquire 1, ApiServer.GateEv.acquire 2,
       ApiServer.GateEv.acquire 3, ApiServer.GateEv.acquire 4, ApiServer.GateEv.release 0,
       ApiServer.GateEv.acquire 5]
      (by unfold ApiServer.ValidGateTrace; decide)).1
    [ApiServer.GateEv.acquire 0, ApiServer.GateEv.acquire 1, ApiServer.GateEv.acquire 2,
     ApiServer.GateEv.acquire 3, ApiServer.GateEv.acquire 4]
    ⟨[ApiServer.GateEv.release 0, ApiServer.GateEv.acquire 5], rfl⟩,
   (claim_C2
      [ApiServer.GateEv.acquire 0, ApiServer.GateEv.acquire 1, ApiServer.GateEv.acquire 2,
       ApiServer.GateEv.acquire 3, ApiServer.GateEv.acquire 4, ApiServer.GateEv.release 0,
       ApiServer.GateEv.acquire 5]
      (by unfold ApiServer.ValidGateTrace; decide)).2
    [ApiServer.GateEv.acquire 0, ApiServer.GateEv.acquire 1, ApiServer.GateEv.acquire 2,
     ApiServer.GateEv.acquire 3, ApiServer.GateEv.acquire 4, ApiServer.GateEv.release 0]
    5 [] rfl (by decide)⟩
